import Mathlib

/- Verification of the Vinyl Scrobbler scan-to-scrobble pipeline.
   The definitions below are shallow embeddings of the JavaScript functions in
   the inline module script of index.html; cited line numbers refer to that
   file.  32-bit machine arithmetic is modelled on Nat with explicit reduction
   modulo 2 ^ 32. -/

namespace VinylScrobbler

/-- Modulus of 32-bit word arithmetic (2 to the 32nd power). -/
def u32Mod : Nat := 4294967296

/-- Addition modulo 2 ^ 32. -/
def add32 (a b : Nat) : Nat := (a + b) % u32Mod

/-- Bitwise complement of a 32-bit word. -/
def not32 (x : Nat) : Nat := x ^^^ 4294967295

/-- Left rotation of a 32-bit word x by s bits (for x < 2 ^ 32, 0 < s < 32). -/
def rotl32 (x s : Nat) : Nat := x * 2 ^ s % u32Mod + x / 2 ^ (32 - s)

/-- MD5 auxiliary function F. -/
def md5F (x y z : Nat) : Nat := (x &&& y) ||| (not32 x &&& z)

/-- MD5 auxiliary function G. -/
def md5G (x y z : Nat) : Nat := (x &&& z) ||| (y &&& not32 z)

/-- MD5 auxiliary function H. -/
def md5H (x y z : Nat) : Nat := x ^^^ y ^^^ z

/-- MD5 auxiliary function I. -/
def md5I (x y z : Nat) : Nat := y ^^^ (x ||| not32 z)

/-- The 64 MD5 sine-derived round constants. -/
def md5K : List Nat :=
  [0xd76aa478, 0xe8c7b756, 0x242070db, 0xc1bdceee,
   0xf57c0faf, 0x4787c62a, 0xa8304613, 0xfd469501,
   0x698098d8, 0x8b44f7af, 0xffff5bb1, 0x895cd7be,
   0x6b901122, 0xfd987193, 0xa679438e, 0x49b40821,
   0xf61e2562, 0xc040b340, 0x265e5a51, 0xe9b6c7aa,
   0xd62f105d, 0x02441453, 0xd8a1e681, 0xe7d3fbc8,
   0x21e1cde6, 0xc33707d6, 0xf4d50d87, 0x455a14ed,
   0xa9e3e905, 0xfcefa3f8, 0x676f02d9, 0x8d2a4c8a,
   0xfffa3942, 0x8771f681, 0x6d9d6122, 0xfde5380c,
   0xa4beea44, 0x4bdecfa9, 0xf6bb4b60, 0xbebfbc70,
   0x289b7ec6, 0xeaa127fa, 0xd4ef3085, 0x04881d05,
   0xd9d4d039, 0xe6db99e5, 0x1fa27cf8, 0xc4ac5665,
   0xf4292244, 0x432aff97, 0xab9423a7, 0xfc93a039,
   0x655b59c3, 0x8f0ccc92, 0xffeff47d, 0x85845dd1,
   0x6fa87e4f, 0xfe2ce6e0, 0xa3014314, 0x4e0811a1,
   0xf7537e82, 0xbd3af235, 0x2ad7d2bb, 0xeb86d391]

/-- The 64 MD5 per-round left-rotation amounts. -/
def md5S : List Nat :=
  [7, 12, 17, 22, 7, 12, 17, 22, 7, 12, 17, 22, 7, 12, 17, 22,
   5, 9, 14, 20, 5, 9, 14, 20, 5, 9, 14, 20, 5, 9, 14, 20,
   4, 11, 16, 23, 4, 11, 16, 23, 4, 11, 16, 23, 4, 11, 16, 23,
   6, 10, 15, 21, 6, 10, 15, 21, 6, 10, 15, 21, 6, 10, 15, 21]

/-- One MD5 round: M gives the 16 message words of the current chunk. -/
def md5Round (M : Nat → Nat) (st : Nat × Nat × Nat × Nat) (i : Nat) :
    Nat × Nat × Nat × Nat :=
  let a := st.1
  let b := st.2.1
  let c := st.2.2.1
  let d := st.2.2.2
  let f :=
    if i < 16 then md5F b c d
    else if i < 32 then md5G b c d
    else if i < 48 then md5H b c d
    else md5I b c d
  let g :=
    if i < 16 then i
    else if i < 32 then (5 * i + 1) % 16
    else if i < 48 then (3 * i + 5) % 16
    else 7 * i % 16
  let rotated := rotl32 (add32 (add32 (add32 a f) (md5K.getD i 0)) (M g)) (md5S.getD i 0)
  (d, add32 b rotated, b, c)

/-- Process one 64-byte chunk, updating the four-word MD5 state. -/
def md5Compress (st : Nat × Nat × Nat × Nat) (chunk : List Nat) :
    Nat × Nat × Nat × Nat :=
  let M : Nat → Nat := fun j =>
    chunk.getD (4 * j) 0 + 256 * chunk.getD (4 * j + 1) 0 +
      65536 * chunk.getD (4 * j + 2) 0 + 16777216 * chunk.getD (4 * j + 3) 0
  let r := (List.range 64).foldl (md5Round M) st
  (add32 st.1 r.1, add32 st.2.1 r.2.1, add32 st.2.2.1 r.2.2.1, add32 st.2.2.2 r.2.2.2)

/-- Little-endian byte decomposition: the k low-order bytes of v. -/
def leBytes (k v : Nat) : List Nat := (List.range k).map (fun i => v / 256 ^ i % 256)

/-- MD5 padding: a 1 bit, zeros to 56 mod 64 bytes, then the 64-bit bit length. -/
def md5Pad (msg : List Nat) : List Nat :=
  msg ++ [128] ++ List.replicate ((120 - (msg.length + 1) % 64) % 64) 0 ++
    leBytes 8 (8 * msg.length % 2 ^ 64)

/-- Split a byte list into successive 64-byte chunks (fuel-driven recursion). -/
def chunks64Go : Nat → List Nat → List (List Nat)
  | 0, _ => []
  | _ + 1, [] => []
  | fuel + 1, a :: rest => ((a :: rest).take 64) :: chunks64Go fuel ((a :: rest).drop 64)

/-- Split a byte list into successive 64-byte chunks. -/
def chunks64 (l : List Nat) : List (List Nat) := chunks64Go l.length l

/-- The 16 digest bytes of the MD5 of a byte message. -/
def md5Bytes (msg : List Nat) : List Nat :=
  let st := (chunks64 (md5Pad msg)).foldl md5Compress
    (1732584193, 4023233417, 2562383102, 271733878)
  leBytes 4 st.1 ++ leBytes 4 st.2.1 ++ leBytes 4 st.2.2.1 ++ leBytes 4 st.2.2.2

/-- Lowercase hexadecimal digit for n < 16. -/
def hexDigitChar (n : Nat) : Char :=
  if n < 10 then Char.ofNat (48 + n) else Char.ofNat (87 + n)

/-- Two lowercase hexadecimal digits of a byte. -/
def byteToHex (b : Nat) : String := String.mk [hexDigitChar (b / 16), hexDigitChar (b % 16)]

/-- UTF-8 encoding of one character (CryptoJS parses strings as UTF-8). -/
def utf8Bytes (c : Char) : List Nat :=
  let n := c.toNat
  if n < 128 then [n]
  else if n < 2048 then [192 + n / 64, 128 + n % 64]
  else if n < 65536 then [224 + n / 4096, 128 + n / 64 % 64, 128 + n % 64]
  else [240 + n / 262144, 128 + n / 4096 % 64, 128 + n / 64 % 64, 128 + n % 64]

/-- UTF-8 bytes of a string. -/
def strBytes (s : String) : List Nat :=
  s.data.foldr (fun c acc => utf8Bytes c ++ acc) []

/-- Lowercase-hex MD5 digest of a string, as CryptoJS.MD5(s).toString() yields it. -/
def md5Hex (s : String) : String :=
  String.join ((md5Bytes (strBytes s)).map byteToHex)

/- A JavaScript object literal of string fields is modelled as an association
   list (insertion order, unique keys).  Object.keys gives the keys in
   insertion order; property read is first lookup.  All parameter keys used by
   the program are ASCII, where the default JavaScript sort order coincides
   with the codepoint order on Lean strings. -/

/-- Object.keys(params).sort() of generateApiSignature (index.html line 178). -/
def sortedParamKeys (params : List (String × String)) : List String :=
  List.insertionSort (fun a b => a ≤ b) (params.map Prod.fst)

/-- Property read params[key] (defined for every key of the object). -/
def paramValue (params : List (String × String)) (k : String) : String :=
  (params.lookup k).getD ""

/-- The signature base string of generateApiSignature (index.html lines
    179-183): concatenation of key + value over the sorted keys followed by
    the shared secret. -/
def signatureString (params : List (String × String)) (secret : String) : String :=
  (sortedParamKeys params).foldl (fun acc k => acc ++ k ++ paramValue params k) "" ++ secret

/-- generateApiSignature (index.html lines 177-185): lowercase-hex MD5 of the
    signature base string. -/
def generateApiSignature (params : List (String × String)) (secret : String) : String :=
  md5Hex (signatureString params secret)

/-- Written from the specification words only (spec section 4.2, steps 1-4),
    to be compared with generateApiSignature: sort the keys lexicographically,
    join key + value with no separators, append the secret, and take the
    lowercase-hex 128-bit MD5 digest. -/
def signSpec (params : List (String × String)) (secret : String) : String :=
  md5Hex (String.join ((List.insertionSort (fun a b => a ≤ b) (params.map Prod.fst)).map
    (fun k => k ++ (params.lookup k).getD "")) ++ secret)

/-- JavaScript property assignment obj[k] = v: overwrite in place when the key
    exists, otherwise append the new key at the end. -/
def jsSet (l : List (String × String)) (k v : String) : List (String × String) :=
  if (l.lookup k).isSome then l.map (fun p => if p.1 = k then (k, v) else p)
  else l ++ [(k, v)]

/-- Parameter assembly of makeApiRequest (index.html lines 187-197): inject
    api_key into every request, inject api_sig when the request is signed, and
    only afterwards inject format = json. -/
def makeApiRequestParams (params : List (String × String)) (apiKey apiSecret : String)
    (isSigned : Bool) : List (String × String) :=
  let p1 := jsSet params "api_key" apiKey
  let p2 := if isSigned then jsSet p1 "api_sig" (generateApiSignature p1 apiSecret) else p1
  jsSet p2 "format" "json"

/-- An HTTP response as makeApiRequest sees it: the ok flag, the error code and
    message parsed from the error body (read only when ok is false), and the
    parsed success body. -/
structure HttpResponse (β : Type) where
  ok : Bool
  errorMessage : String
  errorCode : Nat
  body : β
  deriving DecidableEq

/-- Message of the Error thrown at index.html line 217 for a non-ok response. -/
def remoteErrorMessage (msg : String) (code : Nat) : String :=
  "Last.fm API Error: " ++ msg ++ " (code: " ++ toString code ++ ")"

/-- Response handling of makeApiRequest (index.html lines 215-224): on a
    non-ok status an Error carrying the service code and message is thrown,
    caught by the surrounding catch, logged, and null is returned; on an ok
    status the parsed body is returned.  The first component is what the
    caller receives, the second the scrobble-log entries written. -/
def makeApiRequestResult {β : Type} (resp : HttpResponse β) : Option β × List String :=
  if resp.ok then (some resp.body, [])
  else (none, ["API Request Failed: " ++ remoteErrorMessage resp.errorMessage resp.errorCode])

/- ---------- Tracklist response shape and normalization ---------- -/

/-- A track of the album.getinfo response; only its name is used. -/
structure Track where
  name : String
  deriving DecidableEq

/-- tracklistData.album.tracks.track: the remote service returns a bare object
    for a single-track album and an array otherwise. -/
inductive TracksField where
  | single (t : Track)
  | multiple (ts : List Track)
  deriving DecidableEq

/-- tracklistData.album.tracks, whose track field may be absent. -/
structure TracksObject where
  track : Option TracksField
  deriving DecidableEq

/-- tracklistData.album, which may be absent from the response. -/
structure TracklistResponse where
  album : Option TracksObject
  deriving DecidableEq

/-- The guard and normalization of scrobbleAlbum (index.html lines 427-432):
    a null response, a missing album, a missing track field or an empty track
    array take the failure return; a bare single track is wrapped into a
    one-element array. -/
def normalizeTracks (d : Option TracklistResponse) : Option (List Track) :=
  match d with
  | none => none
  | some r =>
    match r.album with
    | none => none
    | some tr =>
      match tr.track with
      | none => none
      | some (.single t) => some [t]
      | some (.multiple ts) => if ts.isEmpty then none else some ts

/- ---------- Scrobble batch construction ---------- -/

/-- One entry of the scrobble submission: the artist[i], album[i], track[i]
    and timestamp[i] parameters for one index i (index.html lines 443-448). -/
structure ScrobbleEntry where
  artist : String
  album : String
  track : String
  timestamp : Int
  deriving DecidableEq

/-- The timestamps array of scrobbleAlbum (index.html lines 435-440): push
    now - i * 240 for i below the track count, then reverse. -/
def scrobbleTimestamps (now : Int) (n : Nat) : List Int :=
  ((List.range n).map (fun i : Nat => now - (i : Int) * 240)).reverse

/-- The loop of index.html lines 443-448: entry i carries the artist, the
    album, the name of track i and the i-th reversed timestamp. -/
def buildScrobbleEntries (artist album : String) (tracks : List Track) (now : Int) :
    List ScrobbleEntry :=
  (tracks.zip (scrobbleTimestamps now tracks.length)).map
    (fun p => { artist := artist, album := album, track := p.1.name, timestamp := p.2 })

/-- ScrobbleBatch of the data model: the indexed entries plus the sk session
    parameter of the track.scrobble call (index.html line 442). -/
structure ScrobbleBatch where
  entries : List ScrobbleEntry
  sessionKey : String
  deriving DecidableEq

/-- scrobbles['@attr'] of the track.scrobble response. -/
structure ScrobbleAttr where
  accepted : Nat
  deriving DecidableEq

/-- The track.scrobble response body; its scrobbles field may be absent. -/
structure ScrobbleApiResponse where
  scrobbles : Option ScrobbleAttr
  deriving DecidableEq

/-- The test of index.html line 452: the accepted count when the response and
    its scrobbles field are both present. -/
def scrobbleSuccessCount (resp : Option ScrobbleApiResponse) : Option Nat :=
  match resp with
  | none => none
  | some r =>
    match r.scrobbles with
    | none => none
    | some attr => some attr.accepted

/- ---------- Scan event processing as an action trace ---------- -/

/-- The observable actions of one scan event's processing, one constructor per
    call site, in program-order of the handler code. -/
inductive Action where
  | logScanReceived (rfid : String)
  | uiSetTagField (rfid : String)
  | logAuthMissing
  | mappingLookup (rfid : String)
  | logAlbumFound (artist album : String)
  | logUnmappedTag (rfid : String)
  | logFetchingTracklist (artist album : String)
  | tracklistFetch (artist album : String)
  | logTracklistMissing (album : String)
  | logTracksFound (n : Nat)
  | scrobbleSubmit (n : Nat)
  | logScrobbleSuccess (accepted : Nat) (album : String)
  | logScrobbleFailed (album : String)
  | deleteScanEvent
  deriving DecidableEq

/-- Terminal outcome of one scrobbleAlbum run. -/
inductive ScrobbleOutcome where
  | tracklistFailure
  | scrobbleFailure
  | scrobbleSuccess (accepted : Nat)
  deriving DecidableEq

/-- Result of one scrobbleAlbum run: its outcome, the batch submitted to the
    remote service (none when no submission was made), and the action trace. -/
structure ScrobbleRun where
  outcome : ScrobbleOutcome
  submitted : Option ScrobbleBatch
  trace : List Action
  deriving DecidableEq

/-- The stage of scrobbleAlbum after a non-empty tracklist was obtained
    (index.html lines 433-456): build the batch, submit it, and report
    success exactly when the accepted count of the response is positive. -/
def scrobbleAlbumAfterTracks (artist album sk : String) (now : Int) (tracks : List Track)
    (submit : ScrobbleBatch → Option ScrobbleApiResponse) : ScrobbleRun :=
  match scrobbleSuccessCount
      (submit { entries := buildScrobbleEntries artist album tracks now, sessionKey := sk }) with
  | some acc =>
    if 0 < acc then
      { outcome := .scrobbleSuccess acc,
        submitted := some { entries := buildScrobbleEntries artist album tracks now,
                            sessionKey := sk },
        trace := [.logFetchingTracklist artist album, .tracklistFetch artist album,
                  .logTracksFound tracks.length,
                  .scrobbleSubmit (buildScrobbleEntries artist album tracks now).length,
                  .logScrobbleSuccess acc album] }
    else
      { outcome := .scrobbleFailure,
        submitted := some { entries := buildScrobbleEntries artist album tracks now,
                            sessionKey := sk },
        trace := [.logFetchingTracklist artist album, .tracklistFetch artist album,
                  .logTracksFound tracks.length,
                  .scrobbleSubmit (buildScrobbleEntries artist album tracks now).length,
                  .logScrobbleFailed album] }
  | none =>
    { outcome := .scrobbleFailure,
      submitted := some { entries := buildScrobbleEntries artist album tracks now,
                          sessionKey := sk },
      trace := [.logFetchingTracklist artist album, .tracklistFetch artist album,
                .logTracksFound tracks.length,
                .scrobbleSubmit (buildScrobbleEntries artist album tracks now).length,
                .logScrobbleFailed album] }

/-- scrobbleAlbum (index.html lines 418-457).  The tracklist response tl is
    what the awaited album.getinfo request returns; submit is the remote
    service's reply to the awaited track.scrobble POST of a batch. -/
def scrobbleAlbum (artist album sk : String) (now : Int) (tl : Option TracklistResponse)
    (submit : ScrobbleBatch → Option ScrobbleApiResponse) : ScrobbleRun :=
  match normalizeTracks tl with
  | none =>
    { outcome := .tracklistFailure, submitted := none,
      trace := [.logFetchingTracklist artist album, .tracklistFetch artist album,
                .logTracklistMissing album] }
  | some tracks => scrobbleAlbumAfterTracks artist album sk now tracks submit

/-- JavaScript truthiness test of !lastFmSessionKey at index.html line 463:
    an undefined variable and an empty string are both falsy. -/
def jsFalsyStr (s : Option String) : Bool :=
  match s with
  | none => true
  | some v => v.isEmpty

/-- handleScan (index.html lines 459-478) as an action trace.  sessionKey is
    the lastFmSessionKey global; mapping is what the awaited getDoc of the
    album document for rfid yields (none when the document does not exist). -/
def handleScan (sessionKey : Option String) (mapping : Option (String × String)) (now : Int)
    (tl : Option TracklistResponse) (submit : ScrobbleBatch → Option ScrobbleApiResponse)
    (rfid : String) : List Action :=
  [.logScanReceived rfid, .uiSetTagField rfid] ++
    (if jsFalsyStr sessionKey then [.logAuthMissing]
     else .mappingLookup rfid ::
       (match mapping with
        | some (artist, album) =>
          .logAlbumFound artist album ::
            (scrobbleAlbum artist album (sessionKey.getD "") now tl submit).trace
        | none => [.logUnmappedTag rfid]))

/-- The scans onSnapshot handler for one added change (index.html lines
    618-626): await handleScan on the event's rfid, then await deleteDoc of
    the event document. -/
def processScanEvent (sessionKey : Option String) (mapping : Option (String × String))
    (now : Int) (tl : Option TracklistResponse)
    (submit : ScrobbleBatch → Option ScrobbleApiResponse) (rfid : String) : List Action :=
  handleScan sessionKey mapping now tl submit rfid ++ [.deleteScanEvent]

/-- The remote calls named by claim C1: the album.getinfo tracklist fetch and
    the track.scrobble submission (the mapping lookup is set aside there). -/
def isRemoteCall : Action → Bool
  | .tracklistFetch _ _ => true
  | .scrobbleSubmit _ => true
  | _ => false

/-- The event record is deleted before any remote call is issued: no remote
    call occurs in the trace prefix that precedes the first deletion of the
    scan event record. -/
def deletesEventBeforeRemoteCalls (tr : List Action) : Prop :=
  ∀ a ∈ tr.takeWhile (fun x => x != Action.deleteScanEvent), isRemoteCall a = false

instance (tr : List Action) : Decidable (deletesEventBeforeRemoteCalls tr) :=
  inferInstanceAs (Decidable (∀ a ∈ tr.takeWhile (fun x => x != Action.deleteScanEvent),
    isRemoteCall a = false))

/- ---------- Helper lemmas ---------- -/

lemma strFoldlAppend (l : List String) :
    ∀ x y : String, l.foldl (fun r s => r ++ s) (x ++ y) = x ++ l.foldl (fun r s => r ++ s) y := by
  induction l with
  | nil => intro x y; rfl
  | cons a t ih =>
    intro x y
    simp only [List.foldl]
    rw [String.append_assoc, ih]

lemma strJoin_cons (a : String) (l : List String) :
    String.join (a :: l) = a ++ String.join l := by
  show l.foldl (fun r s => r ++ s) ("" ++ a) = a ++ l.foldl (fun r s => r ++ s) ""
  have h : "" ++ a = a ++ "" := by simp
  rw [h, strFoldlAppend]

lemma foldlKeyValue_eq_join (g : String → String) (l : List String) :
    ∀ acc : String,
      l.foldl (fun x k => x ++ k ++ g k) acc = acc ++ String.join (l.map (fun k => k ++ g k)) := by
  induction l with
  | nil => intro acc; simp [String.join]
  | cons a t ih =>
    intro acc
    simp only [List.foldl, List.map]
    rw [ih, strJoin_cons]
    simp [String.append_assoc]

lemma lookup_eq_of_perm (k : String) :
    ∀ {l₁ l₂ : List (String × String)}, l₁.Perm l₂ →
      (l₁.map Prod.fst).Nodup → l₁.lookup k = l₂.lookup k := by
  intro l₁ l₂ h
  induction h with
  | nil => intro _; rfl
  | cons x h ih =>
    obtain ⟨a, b⟩ := x
    intro hn
    simp only [List.map_cons, List.nodup_cons] at hn
    simp only [List.lookup]
    cases hab : k == a with
    | true => rfl
    | false => exact ih hn.2
  | swap x y l =>
    obtain ⟨a, b⟩ := x
    obtain ⟨c, d⟩ := y
    intro hn
    have hca : c ≠ a := by
      simp only [List.map_cons, List.nodup_cons, List.mem_cons] at hn
      exact fun hh => hn.1 (Or.inl hh)
    simp only [List.lookup]
    cases h1 : k == a with
    | true =>
      cases h2 : k == c with
      | true => exact absurd ((eq_of_beq h2).symm.trans (eq_of_beq h1)) hca
      | false => rfl
    | false =>
      cases h2 : k == c with
      | true => rfl
      | false => rfl
  | trans h₁ h₂ ih₁ ih₂ =>
    intro hn
    exact (ih₁ hn).trans (ih₂ (((h₁.map Prod.fst).nodup_iff).mp hn))

lemma lookup_map_replace_of_isSome (k v : String) :
    ∀ l : List (String × String), (l.lookup k).isSome →
      (l.map (fun p => if p.1 = k then (k, v) else p)).lookup k = some v := by
  intro l
  induction l with
  | nil => intro h; simp [List.lookup] at h
  | cons p t ih =>
    obtain ⟨a, b⟩ := p
    intro h
    simp only [List.map_cons]
    by_cases hak : a = k
    · have hx : (if a = k then ((k, v) : String × String) else (a, b)) = (k, v) := if_pos hak
      rw [hx]
      exact List.lookup_cons_self
    · have hax : (if a = k then ((k, v) : String × String) else (a, b)) = (a, b) := if_neg hak
      rw [hax]
      have hka : (k == a) = false := by
        simp only [beq_eq_false_iff_ne]
        exact fun hh => hak hh.symm
      simp only [List.lookup, hka] at h ⊢
      exact ih h

lemma lookup_append_single_of_none (k v : String) :
    ∀ l : List (String × String), l.lookup k = none →
      (l ++ [(k, v)]).lookup k = some v := by
  intro l
  induction l with
  | nil => simp [List.lookup]
  | cons p t ih =>
    obtain ⟨a, b⟩ := p
    intro h
    simp only [List.lookup] at h ⊢
    cases hka : k == a with
    | true => rw [hka] at h; exact absurd h (by simp)
    | false => rw [hka] at h; exact ih h

lemma lookup_jsSet_self (l : List (String × String)) (k v : String) :
    (jsSet l k v).lookup k = some v := by
  unfold jsSet
  by_cases h : (l.lookup k).isSome
  · rw [if_pos h]
    exact lookup_map_replace_of_isSome k v l h
  · rw [if_neg h]
    exact lookup_append_single_of_none k v l (Option.not_isSome_iff_eq_none.mp h)

lemma lookup_map_replace_ne (k k' v : String) (hk : k ≠ k') :
    ∀ l : List (String × String),
      (l.map (fun p => if p.1 = k' then (k', v) else p)).lookup k = l.lookup k := by
  intro l
  induction l with
  | nil => rfl
  | cons p t ih =>
    obtain ⟨a, b⟩ := p
    simp only [List.map_cons]
    by_cases hak : a = k'
    · have hx : (if a = k' then ((k', v) : String × String) else (a, b)) = (k', v) := if_pos hak
      rw [hx]
      have hka : (k == k') = false := by
        simp only [beq_eq_false_iff_ne]
        exact hk
      have hka2 : (k == a) = false := by
        simp only [beq_eq_false_iff_ne]
        rw [hak]
        exact hk
      simp only [List.lookup, hka, hka2]
      exact ih
    · have hax : (if a = k' then ((k', v) : String × String) else (a, b)) = (a, b) := if_neg hak
      rw [hax]
      simp only [List.lookup]
      cases hka : k == a with
      | true => rfl
      | false => exact ih

lemma lookup_jsSet_ne (l : List (String × String)) (k k' v : String) (h : k ≠ k') :
    (jsSet l k' v).lookup k = l.lookup k := by
  unfold jsSet
  by_cases hs : (l.lookup k').isSome
  · rw [if_pos hs]
    exact lookup_map_replace_ne k k' v h l
  · rw [if_neg hs, List.lookup_append]
    have hkk : ([((k', v) : String × String)].lookup k) = none := by
      have hka : (k == k') = false := by simpa [beq_eq_false_iff_ne] using h
      simp [List.lookup, hka]
    cases hh : l.lookup k
    · simp [hh, hkk]
    · simp [hh]

lemma map_fst_jsSet (l : List (String × String)) (k v : String) :
    (jsSet l k v).map Prod.fst
      = if (l.lookup k).isSome then l.map Prod.fst else l.map Prod.fst ++ [k] := by
  unfold jsSet
  by_cases hs : (l.lookup k).isSome
  · rw [if_pos hs, if_pos hs, List.map_map]
    apply List.map_congr_left
    intro p _
    by_cases hp : p.1 = k
    · simp [hp, Function.comp]
    · simp [hp, Function.comp]
  · rw [if_neg hs, if_neg hs]
    simp

lemma sortedParamKeys_eq_of_perm {P₁ P₂ : List (String × String)} (h : P₁.Perm P₂) :
    sortedParamKeys P₁ = sortedParamKeys P₂ := by
  have hs₁ : List.Sorted (fun a b : String => a ≤ b) (sortedParamKeys P₁) :=
    List.sorted_insertionSort _ _
  have hs₂ : List.Sorted (fun a b : String => a ≤ b) (sortedParamKeys P₂) :=
    List.sorted_insertionSort _ _
  have hp : (sortedParamKeys P₁).Perm (sortedParamKeys P₂) :=
    (List.perm_insertionSort _ _).trans ((h.map Prod.fst).trans
      (List.perm_insertionSort _ _).symm)
  exact List.eq_of_perm_of_sorted hp hs₁ hs₂

lemma length_scrobbleTimestamps (now : Int) (n : Nat) :
    (scrobbleTimestamps now n).length = n := by
  simp [scrobbleTimestamps]

lemma getElem?_scrobbleTimestamps (now : Int) (n i : Nat) (h : i < n) :
    (scrobbleTimestamps now n)[i]? = some (now - 240 * ((n - 1 - i : Nat) : Int)) := by
  unfold scrobbleTimestamps
  rw [List.getElem?_reverse (by simpa using h)]
  simp only [List.length_map, List.length_range]
  rw [List.getElem?_map, List.getElem?_range (by omega)]
  simp [mul_comm]

lemma length_buildScrobbleEntries (artist album : String) (tracks : List Track) (now : Int) :
    (buildScrobbleEntries artist album tracks now).length = tracks.length := by
  simp [buildScrobbleEntries, List.length_zip, length_scrobbleTimestamps]

lemma buildScrobbleEntries_timestamp_aux (artist album : String) (tracks : List Track)
    (now : Int) (i : Nat) (h : i < tracks.length) :
    ((buildScrobbleEntries artist album tracks now)[i]?).map ScrobbleEntry.timestamp
      = some (now - 240 * ((tracks.length - 1 - i : Nat) : Int)) := by
  have hlen : (scrobbleTimestamps now tracks.length).length = tracks.length :=
    length_scrobbleTimestamps now tracks.length
  have hz : i < (tracks.zip (scrobbleTimestamps now tracks.length)).length := by
    rw [List.length_zip, hlen]
    omega
  have hti : i < (scrobbleTimestamps now tracks.length).length := by
    rw [hlen]; exact h
  unfold buildScrobbleEntries
  rw [List.getElem?_map, List.getElem?_eq_getElem hz, List.getElem_zip]
  have hv := getElem?_scrobbleTimestamps now tracks.length i h
  rw [List.getElem?_eq_getElem hti] at hv
  simp only [Option.some.injEq] at hv
  simp [hv]

lemma scrobbleAlbum_eq_after {tl : Option TracklistResponse} {tracks : List Track}
    (artist album sk : String) (now : Int)
    (submit : ScrobbleBatch → Option ScrobbleApiResponse)
    (htl : normalizeTracks tl = some tracks) :
    scrobbleAlbum artist album sk now tl submit
      = scrobbleAlbumAfterTracks artist album sk now tracks submit := by
  unfold scrobbleAlbum
  rw [htl]

lemma scrobbleAlbumAfterTracks_submitted (artist album sk : String) (now : Int)
    (tracks : List Track) (submit : ScrobbleBatch → Option ScrobbleApiResponse) :
    (scrobbleAlbumAfterTracks artist album sk now tracks submit).submitted
      = some { entries := buildScrobbleEntries artist album tracks now, sessionKey := sk } := by
  unfold scrobbleAlbumAfterTracks
  split
  · split <;> rfl
  · rfl

lemma scrobbleAlbum_trace_no_delete (artist album sk : String) (now : Int)
    (tl : Option TracklistResponse) (submit : ScrobbleBatch → Option ScrobbleApiResponse) :
    Action.deleteScanEvent ∉ (scrobbleAlbum artist album sk now tl submit).trace := by
  unfold scrobbleAlbum
  split
  · simp
  · unfold scrobbleAlbumAfterTracks
    split
    · split <;> simp
    · simp

lemma handleScan_no_delete (sessionKey : Option String) (mapping : Option (String × String))
    (now : Int) (tl : Option TracklistResponse)
    (submit : ScrobbleBatch → Option ScrobbleApiResponse) (rfid : String) :
    Action.deleteScanEvent ∉ handleScan sessionKey mapping now tl submit rfid := by
  unfold handleScan
  split
  · simp
  · match mapping with
    | none => simp
    | some (artist, album) =>
      simp only [List.mem_append, List.mem_cons]
      intro hmem
      rcases hmem with h | h | h | h
      · simp at h
      · exact absurd h (by simp)
      · exact absurd h (by simp)
      · exact scrobbleAlbum_trace_no_delete artist album _ now tl submit h

lemma map_track_buildScrobbleEntries (artist album : String) (tracks : List Track)
    (now : Int) :
    (buildScrobbleEntries artist album tracks now).map ScrobbleEntry.track
      = tracks.map Track.name := by
  unfold buildScrobbleEntries
  rw [List.map_map]
  have h1 : (ScrobbleEntry.track ∘ fun p : Track × Int =>
      ({ artist := artist, album := album, track := p.1.name, timestamp := p.2 } : ScrobbleEntry))
      = (Track.name ∘ Prod.fst) := rfl
  rw [h1, ← List.map_map]
  rw [List.map_fst_zip tracks (scrobbleTimestamps now tracks.length)
    (by simp [length_scrobbleTimestamps])]

/- ---------- Claim theorems ---------- -/

/-- C3 counterexample: for the concrete non-ok response with service error
    code 10 and message Invalid API key, the caller of makeApiRequest
    observes a null (absent) result rather than an error value, refuting the
    claim that a RemoteServiceError reaches the caller. -/
theorem makeApiRequestResult_claim_counterexample :
    ¬ ∀ (resp : HttpResponse Nat), resp.ok = false →
        (makeApiRequestResult resp).1 ≠ none := by
  intro h
  exact h { ok := false, errorMessage := "Invalid API key", errorCode := 10, body := 0 } rfl rfl

/-- C3 amended: on a non-success HTTP status, makeApiRequest builds the error
    text carrying the service-defined error code and message, writes it to
    the scrobble log, and returns null to its caller; the caller observes an
    absent result, not the error value. -/
theorem makeApiRequestResult_nonOk_logs_and_returns_null {β : Type} (resp : HttpResponse β)
    (h : resp.ok = false) :
    makeApiRequestResult resp
      = (none, ["API Request Failed: " ++
          remoteErrorMessage resp.errorMessage resp.errorCode]) := by
  simp [makeApiRequestResult, h]

/-- C3 witness: the amended theorem applied to the concrete non-ok response. -/
theorem makeApiRequestResult_nonOk_witness :
    makeApiRequestResult
        { ok := false, errorMessage := "Invalid API key", errorCode := 10, body := (0 : Nat) }
      = (none, ["API Request Failed: " ++ remoteErrorMessage "Invalid API key" 10]) :=
  makeApiRequestResult_nonOk_logs_and_returns_null _ rfl

/-- C4: in a signed request the api_sig value equals the signature computed
    over the parameter set with api_key injected — a set that does not
    contain the format parameter — and format = json is appended to the
    outgoing request only after that signature is computed. -/
theorem makeApiRequestParams_signs_before_format
    (params : List (String × String)) (apiKey apiSecret : String)
    (hformat : "format" ∉ params.map Prod.fst) :
    (makeApiRequestParams params apiKey apiSecret true).lookup "api_sig"
        = some (generateApiSignature (jsSet params "api_key" apiKey) apiSecret) ∧
    "format" ∉ (jsSet params "api_key" apiKey).map Prod.fst ∧
    makeApiRequestParams params apiKey apiSecret true
        = jsSet (jsSet (jsSet params "api_key" apiKey) "api_sig"
            (generateApiSignature (jsSet params "api_key" apiKey) apiSecret))
            "format" "json" := by
  refine ⟨?_, ?_, rfl⟩
  · have he : makeApiRequestParams params apiKey apiSecret true
        = jsSet (jsSet (jsSet params "api_key" apiKey) "api_sig"
            (generateApiSignature (jsSet params "api_key" apiKey) apiSecret))
            "format" "json" := rfl
    rw [he, lookup_jsSet_ne _ _ _ _ (by decide)]
    exact lookup_jsSet_self _ _ _
  · rw [map_fst_jsSet]
    split
    · exact hformat
    · simp only [List.mem_append, List.mem_singleton]
      intro hmem
      rcases hmem with h | h
      · exact hformat h
      · exact absurd h (by decide)

/-- C4 witness: the theorem applied to the concrete auth.getSession parameter
    set, whose keys do not contain format. -/
theorem makeApiRequestParams_signs_before_format_witness :
    ("format" ∉ ([("method", "auth.getSession"), ("token", "abc123")].map Prod.fst)) ∧
    ((makeApiRequestParams [("method", "auth.getSession"), ("token", "abc123")] "k" "s"
        true).lookup "api_sig"
      = some (generateApiSignature
          (jsSet [("method", "auth.getSession"), ("token", "abc123")] "api_key" "k") "s") ∧
    "format" ∉ (jsSet [("method", "auth.getSession"), ("token", "abc123")]
        "api_key" "k").map Prod.fst ∧
    makeApiRequestParams [("method", "auth.getSession"), ("token", "abc123")] "k" "s" true
      = jsSet (jsSet (jsSet [("method", "auth.getSession"), ("token", "abc123")]
          "api_key" "k") "api_sig"
          (generateApiSignature
            (jsSet [("method", "auth.getSession"), ("token", "abc123")] "api_key" "k") "s"))
          "format" "json") :=
  ⟨by decide, makeApiRequestParams_signs_before_format _ "k" "s" (by decide)⟩

/-- C5: generateApiSignature equals the lowercase-hex MD5 digest of the
    concatenation of key + value over the lexicographically sorted keys
    followed by the secret (signSpec, written from the spec wording), and the
    result depends only on the key-value mapping: any reordering of the
    parameter list yields the same signature. -/
theorem generateApiSignature_spec_and_order_invariant
    (P₁ P₂ : List (String × String)) (S : String)
    (hperm : P₁.Perm P₂) (hnd : (P₁.map Prod.fst).Nodup) :
    generateApiSignature P₁ S = signSpec P₁ S ∧
    generateApiSignature P₁ S = generateApiSignature P₂ S := by
  constructor
  · unfold generateApiSignature signSpec signatureString
    congr 1
    rw [foldlKeyValue_eq_join (fun k => paramValue P₁ k) (sortedParamKeys P₁) ""]
    simp [sortedParamKeys, paramValue]
  · unfold generateApiSignature signatureString
    have hk := sortedParamKeys_eq_of_perm hperm
    have hpv : ∀ k, paramValue P₁ k = paramValue P₂ k := by
      intro k
      unfold paramValue
      rw [lookup_eq_of_perm k hperm hnd]
    have hfun : (fun acc k => acc ++ k ++ paramValue P₁ k)
        = (fun acc k => acc ++ k ++ paramValue P₂ k) := by
      funext acc k
      rw [hpv k]
    rw [hk, hfun]

/-- C5 witness: the theorem applied to two insertion orders of the same
    two-key mapping. -/
theorem generateApiSignature_spec_and_order_invariant_witness :
    generateApiSignature [("b", "2"), ("a", "1")] "secret"
        = signSpec [("b", "2"), ("a", "1")] "secret" ∧
    generateApiSignature [("b", "2"), ("a", "1")] "secret"
        = generateApiSignature [("a", "1"), ("b", "2")] "secret" :=
  generateApiSignature_spec_and_order_invariant _ _ "secret" (by decide) (by decide)

/-- C6: in the batch built from a tracklist of N tracks at reference time
    now, entry i carries the synthetic timestamp now - 240 * (N - 1 - i), and
    the last entry's timestamp equals now. -/
theorem buildScrobbleEntries_timestamp_spacing (artist album : String) (tracks : List Track)
    (now : Int) (i : Nat) (h : i < tracks.length) :
    ((buildScrobbleEntries artist album tracks now)[i]?).map ScrobbleEntry.timestamp
        = some (now - 240 * ((tracks.length - 1 - i : Nat) : Int)) ∧
    ((buildScrobbleEntries artist album tracks now)[tracks.length - 1]?).map
        ScrobbleEntry.timestamp = some now := by
  constructor
  · exact buildScrobbleEntries_timestamp_aux artist album tracks now i h
  · have h2 : tracks.length - 1 < tracks.length := by omega
    rw [buildScrobbleEntries_timestamp_aux artist album tracks now (tracks.length - 1) h2]
    have hz : tracks.length - 1 - (tracks.length - 1) = 0 := by omega
    rw [hz]
    simp

/-- C6 witness: the theorem applied to a two-track list at reference time
    1000, giving timestamps 760 and 1000. -/
theorem buildScrobbleEntries_timestamp_spacing_witness :
    ((buildScrobbleEntries "AR" "AL" [{ name := "t1" }, { name := "t2" }] 1000)[0]?).map
        ScrobbleEntry.timestamp = some (1000 - 240 * ((1 : Nat) : Int)) ∧
    ((buildScrobbleEntries "AR" "AL" [{ name := "t1" }, { name := "t2" }] 1000)[1]?).map
        ScrobbleEntry.timestamp = some 1000 :=
  buildScrobbleEntries_timestamp_spacing "AR" "AL" _ 1000 0 (by decide)

/-- C7: the track parameters of the built batch list exactly the names of the
    input tracklist, in the same order. -/
theorem buildScrobbleEntries_preserves_track_order (artist album : String)
    (tracks : List Track) (now : Int) :
    (buildScrobbleEntries artist album tracks now).map ScrobbleEntry.track
      = tracks.map Track.name :=
  map_track_buildScrobbleEntries artist album tracks now

/-- C8: an absent tracklist response, an absent album, an absent track field
    and an empty track array each make scrobbleAlbum take the failure return
    before any batch is built: the outcome is the tracklist failure and
    nothing is submitted to the remote service. -/
theorem scrobbleAlbum_empty_or_absent_tracklist (artist album sk : String) (now : Int)
    (submit : ScrobbleBatch → Option ScrobbleApiResponse) :
    (scrobbleAlbum artist album sk now none submit).outcome = .tracklistFailure ∧
    (scrobbleAlbum artist album sk now none submit).submitted = none ∧
    (scrobbleAlbum artist album sk now (some { album := none }) submit).outcome
        = .tracklistFailure ∧
    (scrobbleAlbum artist album sk now (some { album := none }) submit).submitted = none ∧
    (scrobbleAlbum artist album sk now (some { album := some { track := none } })
        submit).outcome = .tracklistFailure ∧
    (scrobbleAlbum artist album sk now (some { album := some { track := none } })
        submit).submitted = none ∧
    (scrobbleAlbum artist album sk now
        (some { album := some { track := some (.multiple []) } }) submit).outcome
        = .tracklistFailure ∧
    (scrobbleAlbum artist album sk now
        (some { album := some { track := some (.multiple []) } }) submit).submitted = none :=
  ⟨rfl, rfl, rfl, rfl, rfl, rfl, rfl, rfl⟩

/-- C9: a response carrying a bare single track object is normalized to the
    one-element tracklist before batch building, so the submitted batch has
    exactly one entry carrying that track's name. -/
theorem scrobbleAlbum_single_track_normalized (artist album sk : String) (now : Int)
    (t : Track) (submit : ScrobbleBatch → Option ScrobbleApiResponse) :
    normalizeTracks (some { album := some { track := some (.single t) } }) = some [t] ∧
    (scrobbleAlbum artist album sk now (some { album := some { track := some (.single t) } })
        submit).submitted
      = some { entries := buildScrobbleEntries artist album [t] now, sessionKey := sk } ∧
    (buildScrobbleEntries artist album [t] now).length = 1 ∧
    (buildScrobbleEntries artist album [t] now).map ScrobbleEntry.track = [t.name] := by
  have htl : normalizeTracks (some { album := some { track := some (.single t) } })
      = some [t] := rfl
  refine ⟨htl, ?_, ?_, ?_⟩
  · rw [scrobbleAlbum_eq_after artist album sk now submit htl]
    exact scrobbleAlbumAfterTracks_submitted artist album sk now [t] submit
  · rw [length_buildScrobbleEntries]
    rfl
  · rw [map_track_buildScrobbleEntries]
    rfl

/-- C2 counterexample: with a two-entry batch whose submission response
    reports accepted = 1 (a partial acceptance, 1 < 2), the outcome is not
    reported as a failure — the code reports success for any positive
    accepted count — refuting the claim. -/
theorem scrobbleAlbum_partial_acceptance_counterexample :
    ¬ ∀ (artist album sk : String) (now : Int) (tl : Option TracklistResponse)
        (submit : ScrobbleBatch → Option ScrobbleApiResponse)
        (batch : ScrobbleBatch) (acc : Nat),
        (scrobbleAlbum artist album sk now tl submit).submitted = some batch →
        submit batch = some { scrobbles := some { accepted := acc } } →
        acc < batch.entries.length →
        (scrobbleAlbum artist album sk now tl submit).outcome
          = ScrobbleOutcome.scrobbleFailure := by
  intro h
  have hc := h "AR" "AL" "sk" 0
    (some { album := some { track := some (.multiple [{ name := "t1" }, { name := "t2" }]) } })
    (fun _ => some { scrobbles := some { accepted := 1 } })
    { entries := buildScrobbleEntries "AR" "AL" [{ name := "t1" }, { name := "t2" }] 0,
      sessionKey := "sk" } 1 rfl rfl (by decide)
  exact absurd hc (by decide)

/-- C2 amended: a submitted batch is reported as a success exactly when the
    response reports a positive accepted count, and as a failure exactly when
    the accepted count is zero — regardless of the submitted entry count, so
    partial acceptance is reported as success of the whole batch. -/
theorem scrobbleAlbum_partial_acceptance_reported_success (artist album sk : String)
    (now : Int) (tl : Option TracklistResponse)
    (submit : ScrobbleBatch → Option ScrobbleApiResponse) (tracks : List Track) (acc : Nat)
    (htl : normalizeTracks tl = some tracks)
    (hresp : submit ⟨buildScrobbleEntries artist album tracks now, sk⟩
        = some ⟨some ⟨acc⟩⟩) :
    ((scrobbleAlbum artist album sk now tl submit).outcome
        = ScrobbleOutcome.scrobbleSuccess acc ↔ 0 < acc) ∧
    ((scrobbleAlbum artist album sk now tl submit).outcome
        = ScrobbleOutcome.scrobbleFailure ↔ acc = 0) := by
  rw [scrobbleAlbum_eq_after artist album sk now submit htl]
  unfold scrobbleAlbumAfterTracks
  rw [hresp]
  simp only [scrobbleSuccessCount]
  by_cases hacc : 0 < acc
  · rw [if_pos hacc]
    constructor
    · simp [hacc]
    · simp only []
      constructor
      · intro hh
        exact absurd hh (by simp)
      · intro hh
        omega
  · rw [if_neg hacc]
    constructor
    · simp only []
      constructor
      · intro hh
        exact absurd hh (by simp)
      · intro hh
        omega
    · simp
      omega

/-- C2 witness: the amended theorem applied to a two-track batch whose
    response reports accepted = 1. -/
theorem scrobbleAlbum_partial_acceptance_reported_success_witness :
    ((scrobbleAlbum "AR" "AL" "sk" 0
        (some ⟨some ⟨some (.multiple [⟨"t1"⟩, ⟨"t2"⟩])⟩⟩)
        (fun _ => some ⟨some ⟨1⟩⟩)).outcome
        = ScrobbleOutcome.scrobbleSuccess 1 ↔ 0 < 1) ∧
    ((scrobbleAlbum "AR" "AL" "sk" 0
        (some ⟨some ⟨some (.multiple [⟨"t1"⟩, ⟨"t2"⟩])⟩⟩)
        (fun _ => some ⟨some ⟨1⟩⟩)).outcome
        = ScrobbleOutcome.scrobbleFailure ↔ 1 = 0) :=
  scrobbleAlbum_partial_acceptance_reported_success "AR" "AL" "sk" 0
    (some ⟨some ⟨some (.multiple [⟨"t1"⟩, ⟨"t2"⟩])⟩⟩)
    (fun _ => some ⟨some ⟨1⟩⟩)
    [⟨"t1"⟩, ⟨"t2"⟩] 1 rfl rfl

/-- C1 counterexample: for a concrete authenticated, mapped scan whose
    tracklist fetch and submission both occur, the event record deletion does
    not precede the remote calls — both remote calls appear in the trace
    before the deleteDoc of the scan event — refuting the claim. -/
theorem processScanEvent_claim_counterexample :
    ¬ deletesEventBeforeRemoteCalls
        (processScanEvent (some "sessionkey")
          (some ("Pink Floyd", "The Dark Side of the Moon")) 1700000000
          (some ⟨some ⟨some (.multiple [⟨"Speak to Me"⟩, ⟨"Breathe"⟩])⟩⟩)
          (fun _ => some ⟨some ⟨2⟩⟩) "TAG123") := by
  decide

/-- C1 amended: the scan handler deletes the transient event record only
    after processing completes: the deletion is the final action of the event
    trace and never occurs inside handleScan, so every mapping lookup,
    tracklist fetch and scrobble submission happens while the event record
    still exists, and a crash mid-processing can cause the same event to be
    reprocessed. -/
theorem processScanEvent_deletes_event_only_last (sessionKey : Option String)
    (mapping : Option (String × String)) (now : Int) (tl : Option TracklistResponse)
    (submit : ScrobbleBatch → Option ScrobbleApiResponse) (rfid : String) :
    processScanEvent sessionKey mapping now tl submit rfid
        = handleScan sessionKey mapping now tl submit rfid ++ [Action.deleteScanEvent] ∧
    (processScanEvent sessionKey mapping now tl submit rfid).getLast?
        = some Action.deleteScanEvent ∧
    Action.deleteScanEvent ∉ handleScan sessionKey mapping now tl submit rfid :=
  ⟨rfl, List.getLast?_concat _, handleScan_no_delete sessionKey mapping now tl submit rfid⟩

/-- C10: a scan handled while no session key is loaded halts right after the
    authentication error log: the trace is exactly the scan log, the UI tag
    field write and the authentication error — containing no mapping lookup,
    no remote call, no store write, and in particular no unmapped-tag
    report. -/
theorem handleScan_unauthenticated_halts (mapping : Option (String × String)) (now : Int)
    (tl : Option TracklistResponse) (submit : ScrobbleBatch → Option ScrobbleApiResponse)
    (rfid : String) :
    handleScan none mapping now tl submit rfid
        = [Action.logScanReceived rfid, Action.uiSetTagField rfid, Action.logAuthMissing] ∧
    ∀ a ∈ handleScan none mapping now tl submit rfid,
      isRemoteCall a = false ∧ a ≠ Action.mappingLookup rfid ∧
        a ≠ Action.deleteScanEvent ∧ a ≠ Action.logUnmappedTag rfid := by
  have he : handleScan none mapping now tl submit rfid
      = [Action.logScanReceived rfid, Action.uiSetTagField rfid, Action.logAuthMissing] := rfl
  refine ⟨he, ?_⟩
  rw [he]
  intro a ha
  simp only [List.mem_cons, List.not_mem_nil, or_false] at ha
  rcases ha with h | h | h <;> subst h <;>
    exact ⟨rfl, by simp, by simp, by simp⟩

end VinylScrobbler
